import Mathlib

/-!
Shallow embedding of the request-handling core of the rustywebserver
program (src/main.rs). Rust strings are modelled as lists of characters,
following the usual shallow-embedding style for Rust string code; where
the Rust code takes a byte length of a string, the model computes the
UTF-8 byte length explicitly.
-/

namespace RustyWeb

abbrev Str := List Char

def str (s : String) : Str := s.data

/-- Rust str::trim: remove leading and trailing whitespace. -/
def trimL (s : Str) : Str :=
  ((s.dropWhile Char.isWhitespace).reverse.dropWhile Char.isWhitespace).reverse

/-- Split a list of characters at every occurrence of the separator. -/
def splitChar (c : Char) : Str → List Str
  | [] => [[]]
  | x :: xs =>
    match splitChar c xs with
    | [] => [[]]
    | y :: ys => if x = c then [] :: y :: ys else (x :: y) :: ys

/-- Remove one trailing carriage return, when present. -/
def stripCR (l : Str) : Str :=
  if l.getLast? = some '\r' then l.dropLast else l

/-- Pieces between newline characters: every piece but the last one was
terminated by a newline, so one trailing CR is stripped from it; a final
empty piece (string ended with a newline, or empty string) is dropped. -/
def rustLinesAux : List Str → List Str
  | [] => []
  | [lastPiece] => if lastPiece = [] then [] else [lastPiece]
  | p :: q :: rest => stripCR p :: rustLinesAux (q :: rest)

/-- Rust str::lines. -/
def rustLines (s : Str) : List Str := rustLinesAux (splitChar '\n' s)

/-- Split at the first occurrence of a character; none when absent,
mirroring str::find followed by slicing. -/
def splitFirst (c : Char) : Str → Option (Str × Str)
  | [] => none
  | x :: xs =>
    if x = c then some ([], xs)
    else (splitFirst c xs).map (fun p => (x :: p.1, p.2))

/-- parse_header_line from src/main.rs: split on the first colon and trim
both sides; no colon means no header. -/
def parse_header_line (line : Str) : Option (Str × Str) :=
  (splitFirst ':' line).map (fun p => (trimL p.1, trimL p.2))

/-- The loop body of parse_headers from src/main.rs: walk the lines with
their indices, stop at the first empty line recording index + 1 as the
body start, collect colon lines as headers; when no empty line occurs the
body start stays 0. -/
def phAux : List Str → Nat → List (Str × Str) → List (Str × Str) × Nat
  | [], _, acc => (acc, 0)
  | l :: ls, i, acc =>
    if l = [] then (acc, i + 1)
    else
      match parse_header_line l with
      | some kv => phAux ls (i + 1) (acc ++ [kv])
      | none => phAux ls (i + 1) acc

/-- parse_headers from src/main.rs, applied to the script output. -/
def parse_headers (out : Str) : List (Str × Str) × Nat :=
  phAux (rustLines out) 0 []

/-- Vec join with a newline separator, as used on the collected lines. -/
def joinLines : List Str → Str
  | [] => []
  | [l] => l
  | l :: q :: rest => l ++ '\n' :: joinLines (q :: rest)

/-- The response body the script paths compute: the output lines after the
body start index, joined with newlines (src/main.rs lines 211 and 306). -/
def scriptBody (out : Str) : Str :=
  joinLines ((rustLines out).drop (parse_headers out).2)

/-- UTF-8 byte length, matching Rust str::len. -/
def utf8Len (s : Str) : Nat := (s.map Char.utf8Size).sum

def natToStr (n : Nat) : Str := (Nat.repr n).data

/-- Header lookup by exact key equality, as in the GET script path. -/
def lookupHeaderExact (key : Str) (hs : List (Str × Str)) : Option Str :=
  (hs.find? (fun kv => kv.1 == key)).map Prod.snd

/-- Header lookup with the key lowercased first, as in the POST path. -/
def lookupHeaderCI (key : Str) (hs : List (Str × Str)) : Option Str :=
  (hs.find? (fun kv => kv.1.map Char.toLower == key)).map Prod.snd

/-- GET script path content type (src/main.rs lines 212-214): exact match
on the key Content-type, default text/plain. -/
def contentTypeGet (out : Str) : Str :=
  (lookupHeaderExact (str "Content-type") (parse_headers out).1).getD (str "text/plain")

/-- GET script path content length (src/main.rs lines 215-217): a script
supplied Content-length header is copied; only when absent is the body
length used. -/
def contentLengthGet (out : Str) : Str :=
  (lookupHeaderExact (str "Content-length") (parse_headers out).1).getD
    (natToStr (utf8Len (scriptBody out)))

/-- Rust trim_end_matches applied to the NUL character (src/main.rs 309). -/
def trimEndNul (s : Str) : Str :=
  (s.reverse.dropWhile (fun c => c = Char.ofNat 0)).reverse

/-- POST path body (src/main.rs lines 306-309). -/
def postBody (out : Str) : Str := trimEndNul (scriptBody out)

/-- POST path content type (src/main.rs lines 311-315): case-insensitive
match via to_lowercase, default text/plain. -/
def contentTypePost (out : Str) : Str :=
  (lookupHeaderCI (str "content-type") (parse_headers out).1).getD (str "text/plain")

/-- POST path content length (src/main.rs line 317): recomputed from the
trimmed body. -/
def contentLengthPost (out : Str) : Nat := utf8Len (postBody out)

/-- Rust split_whitespace, accumulating the current token reversed. -/
def splitWsAux : Str → Str → List Str
  | [], tok => if tok = [] then [] else [tok.reverse]
  | c :: cs, tok =>
    if c.isWhitespace then
      if tok = [] then splitWsAux cs []
      else tok.reverse :: splitWsAux cs []
    else splitWsAux cs (c :: tok)

def splitWs (s : Str) : List Str := splitWsAux s []

/-- Request line handling from connection (src/main.rs lines 59-71): take
the first whitespace token as method and the second as target, both
defaulting to the empty string; split the target at the first question
mark into path and query. Extra tokens are silently dropped. -/
def parseRequestLine (line : Str) : Str × Str × Option Str :=
  let parts := splitWs line
  let method := parts.getD 0 []
  let rawPath := parts.getD 1 []
  match splitFirst '?' rawPath with
  | some pq => (method, pq.1, some pq.2)
  | none => (method, rawPath, none)

inductive MethodOutcome
  | get
  | post
  | methodNotAllowed
  | badRequest
deriving DecidableEq

/-- Method dispatch from connection (src/main.rs lines 86-95): GET and
POST have handlers, every other method string gets the 405 branch. The
badRequest constructor models the 400 outcome the spec requires; the
dispatcher never produces it. -/
def dispatchMethod (m : Str) : MethodOutcome :=
  if m = str "GET" then MethodOutcome.get
  else if m = str "POST" then MethodOutcome.post
  else MethodOutcome.methodNotAllowed

inductive GetOutcome
  | forbidden
  | script
  | staticFile
  | notFound
deriving DecidableEq

/-- The forbidden test of get (src/main.rs line 111): a raw string prefix
check on the unresolved request path. -/
def rustForbiddenCheck (path : Str) : Bool :=
  (str "/..").isPrefixOf path || (str "/forbidden").isPrefixOf path

/-- Control flow of get (src/main.rs lines 107-158), abstracted over the
filesystem answer for is_file on the joined path. -/
def getDispatch (path : Str) (fsIsFile : Bool) : GetOutcome :=
  if rustForbiddenCheck path then GetOutcome.forbidden
  else if (str "/scripts/").isPrefixOf path then GetOutcome.script
  else if fsIsFile then GetOutcome.staticFile
  else GetOutcome.notFound

inductive PostOutcome
  | execute
  | notFound
  | forbidden
deriving DecidableEq

/-- Control flow of post (src/main.rs lines 258-338): the only test before
spawning the target as a child process is is_file on the joined path; the
request path itself is never inspected. The forbidden constructor models
the 403 outcome the spec requires; the handler never produces it. -/
def postDispatch (_path : Str) (fsIsFile : Bool) : PostOutcome :=
  if fsIsFile then PostOutcome.execute else PostOutcome.notFound

/-- Slash-separated nonempty path segments. -/
def pathSegments (p : Str) : List Str :=
  (splitChar '/' p).filter (fun s => s ≠ [])

/-- Modelled from the spec: filesystem canonicalization of an absolute
path given as segments, resolving dot and dotdot segments the way the
operating system does on an existing symlink-free path. The Rust code
never canonicalizes; this definition expresses what the spec requires so
the two can be compared. -/
def canonAux : List Str → List Str → List Str
  | acc, [] => acc
  | acc, s :: rest =>
    if s = str "." then canonAux acc rest
    else if s = str ".." then canonAux acc.dropLast rest
    else canonAux (acc ++ [s]) rest

def canonicalize (segs : List Str) : List Str := canonAux [] segs

/-- The single read performed by connection (src/main.rs lines 46-47): one
read into a 1024-byte buffer; bytes beyond the first 1024, or arriving
later, are never observed. -/
def connectionRead (incoming : List Nat) : List Nat := incoming.take 1024

structure Response where
  code : Nat
  text : Str
  headers : List (Str × Str)
  body : Str

/-- One wire line per header pair, in order. -/
def headerBlock : List (Str × Str) → Str
  | [] => []
  | kv :: rest => kv.1 ++ str ": " ++ kv.2 ++ str "\r\n" ++ headerBlock rest

/-- The wire shape every response of src/main.rs follows: an HTTP/1.1
status line, the header lines in insertion order, a blank line, then the
body bytes. -/
def serializeResponse (r : Response) : Str :=
  str "HTTP/1.1 " ++ natToStr r.code ++ str " " ++ r.text ++ str "\r\n" ++
    headerBlock r.headers ++ str "\r\n" ++ r.body

inductive Emit
  | methodNotAllowed
  | forbidden
  | internalError
  | notFound
  | ok (ct cl body : Str)

/-- The response strings src/main.rs writes to the socket: the literal
error responses of the handlers, and the 200 family built by format with
a content type, a content length and a body. -/
def emit : Emit → Str
  | Emit.methodNotAllowed =>
      str "HTTP/1.1 405 Method Not Allowed\r\nConnection: close\r\n\r\n<html>405 Method Not Allowed</html>"
  | Emit.forbidden =>
      str "HTTP/1.1 403 Forbidden\r\nConnection: close\r\n\r\n<html>403 Forbidden</html>"
  | Emit.internalError =>
      str "HTTP/1.1 500 Internal Server Error\r\nConnection: close\r\n\r\n<html>500 Internal Server Error</html>"
  | Emit.notFound =>
      str "HTTP/1.1 404 Not Found\r\nConnection: close\r\n\r\n<html>404 Not Found</html>"
  | Emit.ok ct cl body =>
      str "HTTP/1.1 200 OK\r\nContent-Type: " ++ ct ++ str "\r\nContent-Length: " ++ cl ++
        str "\r\nConnection: close\r\n\r\n" ++ body

/-!
Theorems settling the claims. Helper lemmas come first; each claim has
one theorem, with a counterexample and a witness where the status calls
for them.
-/

/-- When no line of the input is empty, the header loop returns a body
start index of 0, whatever the running index and accumulator are. -/
theorem phAux_snd_eq_zero (ls : List Str) :
    [] ∉ ls → ∀ (i : Nat) (acc : List (Str × Str)), (phAux ls i acc).2 = 0 := by
  induction ls with
  | nil => intro _ i acc; rfl
  | cons l ls ih =>
      intro h i acc
      have hl : ¬ l = [] := by
        intro e
        exact h (by rw [e]; exact List.mem_cons_self _ _)
      have hm : [] ∉ ls := fun m => h (List.mem_cons_of_mem _ m)
      unfold phAux
      rw [if_neg hl]
      cases hpl : parse_header_line l with
      | some kv => simp only [hpl]; exact ih hm (i + 1) (acc ++ [kv])
      | none => simp only [hpl]; exact ih hm (i + 1) acc

/-- Claim C1: the claim requires the escape check to run after
canonicalization and every traversal outside the root to yield Forbidden.
The code instead string-prefix-checks the raw request path: the path
/./../../etc/passwd passes that check, the GET handler proceeds to serve
the file when the operating system finds one, and the canonical form of
the joined path (root /srv/www) is /etc/passwd, which is not under the
root. -/
theorem c1_code_bug :
    rustForbiddenCheck (str "/./../../etc/passwd") = false ∧
    getDispatch (str "/./../../etc/passwd") true = GetOutcome.staticFile ∧
    canonicalize (pathSegments (str "/srv/www") ++ pathSegments (str "/./../../etc/passwd")) =
      [str "etc", str "passwd"] ∧
    (pathSegments (str "/srv/www")).isPrefixOf
      (canonicalize (pathSegments (str "/srv/www") ++ pathSegments (str "/./../../etc/passwd")))
      = false := by
  decide

/-- Claim C2: the claim requires a POST target outside the scripts
subdirectory to get 403 without execution. The POST handler only checks
is_file: an existing regular file /cgi.sh outside scripts is executed,
and no input at all can produce the forbidden outcome. -/
theorem c2_code_bug :
    postDispatch (str "/cgi.sh") true = PostOutcome.execute ∧
    (str "/scripts/").isPrefixOf (str "/cgi.sh") = false ∧
    (∀ (p : Str) (f : Bool), postDispatch p f ≠ PostOutcome.forbidden) := by
  refine ⟨by decide, by decide, ?_⟩
  intro p f
  cases f <;> simp [postDispatch]

/-- Claim C3: the claim requires reading until the whole header block has
arrived. The connection handler performs exactly one read into a
1024-byte buffer: of a 2000-byte request it observes only the first 1024
bytes, and nothing in the code reads again or fails with
HeaderTooLarge. -/
theorem c3_code_bug :
    connectionRead (List.replicate 2000 72) = List.replicate 1024 72 ∧
    1024 < (List.replicate 2000 72).length := by
  constructor
  · unfold connectionRead
    rw [List.take_replicate]
    norm_num
  · rw [List.length_replicate]
    norm_num

/-- Claim C4: the claim requires a request line with other than exactly
three whitespace tokens to fail with MalformedRequest and a 400 response.
The parser takes the first whitespace token as method and the second as
target, so a four-token line is processed as a normal GET, a one-token
line yields an empty target, and no method string ever reaches a 400
outcome. -/
theorem c4_code_bug :
    parseRequestLine (str "GET /x HTTP/1.1 extra") = (str "GET", str "/x", none) ∧
    parseRequestLine (str "GET") = (str "GET", [], none) ∧
    dispatchMethod (str "GET") = MethodOutcome.get ∧
    (∀ m : Str, dispatchMethod m ≠ MethodOutcome.badRequest) := by
  refine ⟨by decide, by decide, by decide, ?_⟩
  intro m
  unfold dispatchMethod
  split
  · simp
  · split <;> simp

/-- Claim C5 counterexample: the script output Content-type: text/html
has no blank line, yet the bridge parses a header from it and the
response content type is text/html, not the claimed text/plain
default. -/
theorem c5_counterexample :
    [] ∉ rustLines (str "Content-type: text/html") ∧
    (parse_headers (str "Content-type: text/html")).1 =
      [(str "Content-type", str "text/html")] ∧
    contentTypeGet (str "Content-type: text/html") = str "text/html" ∧
    str "text/html" ≠ str "text/plain" := by
  decide

/-- Claim C5 as amended: when the script output contains no blank line
the body start index stays 0, so the whole line-joined output becomes the
body; header-shaped lines are nevertheless parsed, and the content type
defaults to text/plain only when no Content-type header was parsed. -/
theorem c5_amended (out : Str) (h : [] ∉ rustLines out) :
    (parse_headers out).2 = 0 ∧
    scriptBody out = joinLines (rustLines out) ∧
    (lookupHeaderExact (str "Content-type") (parse_headers out).1 = none →
      contentTypeGet out = str "text/plain") := by
  have h2 : (parse_headers out).2 = 0 := phAux_snd_eq_zero (rustLines out) h 0 []
  refine ⟨h2, ?_, ?_⟩
  · unfold scriptBody
    rw [h2, List.drop_zero]
  · intro hnone
    unfold contentTypeGet
    rw [hnone]
    rfl

/-- Claim C5 witness: the amended theorem applied to the blank-line-free
output hello. -/
theorem c5_witness :
    [] ∉ rustLines (str "hello") ∧
    ((parse_headers (str "hello")).2 = 0 ∧
      scriptBody (str "hello") = joinLines (rustLines (str "hello")) ∧
      (lookupHeaderExact (str "Content-type") (parse_headers (str "hello")).1 = none →
        contentTypeGet (str "hello") = str "text/plain")) :=
  ⟨by decide, c5_amended (str "hello") (by decide)⟩

/-- Claim C6: the claim requires the response Content-Length to equal the
parsed body length, a script-supplied value never being copied. On the
GET script path the output Content-length: 999 followed by the body hi
makes the response carry Content-Length 999 while the parsed body has 2
bytes. -/
theorem c6_code_bug :
    contentLengthGet (str "Content-length: 999\n\nhi") = str "999" ∧
    scriptBody (str "Content-length: 999\n\nhi") = str "hi" ∧
    utf8Len (str "hi") = 2 ∧
    str "999" ≠ natToStr 2 := by
  decide

/-- Claim C7 counterexample: for script output whose header key is
spelled Content-Type, the GET bridge falls back to text/plain instead of
extracting text/html, while the POST path extracts it; so extraction is
not case-insensitive on every dispatch path. -/
theorem c7_counterexample :
    contentTypeGet (str "Content-Type: text/html\n\nB") = str "text/plain" ∧
    contentTypeGet (str "Content-Type: text/html\n\nB") ≠ str "text/html" ∧
    contentTypePost (str "Content-Type: text/html\n\nB") = str "text/html" := by
  decide

/-- Claim C7 as amended: the POST path matches the Content-Type header
case-insensitively, but the GET script path matches only the exact key
Content-type; a header whose key differs from that exact spelling is
skipped by the GET lookup even when its lowercase form is
content-type. -/
theorem c7_amended (k v : Str) (hs : List (Str × Str))
    (hk : k.map Char.toLower = str "content-type") (hne : k ≠ str "Content-type") :
    lookupHeaderCI (str "content-type") ((k, v) :: hs) = some v ∧
    lookupHeaderExact (str "Content-type") ((k, v) :: hs) =
      lookupHeaderExact (str "Content-type") hs := by
  constructor
  · unfold lookupHeaderCI
    rw [List.find?_cons_of_pos]
    · rfl
    · simp [hk]
  · unfold lookupHeaderExact
    rw [List.find?_cons_of_neg]
    simp [hne]

/-- Claim C7 witness: the amended theorem applied to the upper-case key
CONTENT-TYPE. -/
theorem c7_witness :
    (str "CONTENT-TYPE").map Char.toLower = str "content-type" ∧
    str "CONTENT-TYPE" ≠ str "Content-type" ∧
    (lookupHeaderCI (str "content-type") [(str "CONTENT-TYPE", str "x/y")] =
        some (str "x/y") ∧
      lookupHeaderExact (str "Content-type") [(str "CONTENT-TYPE", str "x/y")] =
        lookupHeaderExact (str "Content-type") []) :=
  ⟨by decide, by decide, c7_amended (str "CONTENT-TYPE") (str "x/y") [] (by decide) (by decide)⟩

/-- Claim C8: the claim requires body bytes to pass through the
serialization path untouched. The script paths rebuild the body by
splitting the captured output into lines and joining them with newlines,
so a carriage-return pair collapses and a trailing newline disappears;
the POST path additionally trims trailing NUL characters. -/
theorem c8_code_bug :
    scriptBody (str "a\r\nb") = str "a\nb" ∧
    str "a\nb" ≠ str "a\r\nb" ∧
    scriptBody (str "hello\n") = str "hello" ∧
    str "hello" ≠ str "hello\n" ∧
    postBody (str "hi\x00") = str "hi" ∧
    str "hi" ≠ str "hi\x00" := by
  decide

/-- Claim C9 counterexample: the 404 response the server writes begins
with HTTP/1.1, not with the claimed HTTP/1.0 status line. -/
theorem c9_counterexample :
    (str "HTTP/1.0").isPrefixOf (emit Emit.notFound) = false ∧
    (str "HTTP/1.1 404 Not Found\r\n").isPrefixOf (emit Emit.notFound) = true := by
  decide

/-- Claim C9 as amended: every response the server writes is the
serialization of a Response value under the wire shape status line
HTTP/1.1 code text, one header line per pair in insertion order, a blank
line, then the raw body, and that value always carries the header
Connection: close. -/
theorem c9_theorem (e : Emit) :
    ∃ r : Response,
      emit e = serializeResponse r ∧ (str "Connection", str "close") ∈ r.headers := by
  cases e with
  | methodNotAllowed =>
      exact ⟨⟨405, str "Method Not Allowed", [(str "Connection", str "close")],
        str "<html>405 Method Not Allowed</html>"⟩, by decide, by decide⟩
  | forbidden =>
      exact ⟨⟨403, str "Forbidden", [(str "Connection", str "close")],
        str "<html>403 Forbidden</html>"⟩, by decide, by decide⟩
  | internalError =>
      exact ⟨⟨500, str "Internal Server Error", [(str "Connection", str "close")],
        str "<html>500 Internal Server Error</html>"⟩, by decide, by decide⟩
  | notFound =>
      exact ⟨⟨404, str "Not Found", [(str "Connection", str "close")],
        str "<html>404 Not Found</html>"⟩, by decide, by decide⟩
  | ok ct cl body =>
      refine ⟨⟨200, str "OK",
        [(str "Content-Type", ct), (str "Content-Length", cl), (str "Connection", str "close")],
        body⟩, ?_, by simp⟩
      have h1 : str "HTTP/1.1 200 OK\r\nContent-Type: " =
          str "HTTP/1.1 " ++ natToStr 200 ++ str " " ++ str "OK" ++ str "\r\n" ++
            str "Content-Type" ++ str ": " := by decide
      have h2 : str "\r\nContent-Length: " = str "\r\n" ++ str "Content-Length" ++ str ": " := by
        decide
      have h3 : str "\r\nConnection: close\r\n\r\n" =
          str "\r\n" ++ str "Connection" ++ str ": " ++ str "close" ++ str "\r\n" ++ str "\r\n" := by
        decide
      simp only [emit, serializeResponse, headerBlock, h1, h2, h3, List.append_assoc,
        List.append_nil]

/-- Claim C10: a GET request path starting with /forbidden or with /..
is answered 403 by the prefix check before any filesystem access: the
outcome is forbidden for every value of the is_file oracle. -/
theorem c10_theorem (p : Str) (fsIsFile : Bool)
    (h : (str "/forbidden").isPrefixOf p = true ∨ (str "/..").isPrefixOf p = true) :
    getDispatch p fsIsFile = GetOutcome.forbidden := by
  unfold getDispatch rustForbiddenCheck
  rcases h with h | h
  · rw [h]
    simp
  · rw [h]
    simp

/-- Claim C10 witness: the theorem applied to the path
/forbidden/index.html with the filesystem reporting an existing file. -/
theorem c10_witness :
    ((str "/forbidden").isPrefixOf (str "/forbidden/index.html") = true ∨
      (str "/..").isPrefixOf (str "/forbidden/index.html") = true) ∧
    getDispatch (str "/forbidden/index.html") true = GetOutcome.forbidden :=
  ⟨Or.inl (by decide), c10_theorem (str "/forbidden/index.html") true (Or.inl (by decide))⟩

end RustyWeb
